import Mathlib

/-!
Shallow embedding of the ibkr-buy-sell-order service, a Flask HTTP facade
over the ib_insync brokerage client.  The repository has two near-duplicate
application entry points:

* src/app.py      — the per-request-connection variant (`app_` definitions):
                    `connect` builds a fresh `IB()` per call and every
                    operation tears the connection down in a `finally` block;
* src/api/index.py — the long-lived-connection variant (`idx_` definitions):
                    one shared `self.ib` client reused across requests.

The gateway client (ib_insync `IB`) is modelled as an environment record
describing the outcome of each primitive call (`connectAsync`,
`isConnected`, `managedAccounts`, `qualifyContractsAsync`, `placeOrder`).
Exceptions are modelled as `Except.error msg`; each operation accumulates a
trace of the gateway calls it performed.  For the long-lived variant the
result of the n-th `isConnected()` call is an oracle `live : Nat -> Bool`,
which lets the connection drop between any two checks (the raciness the
spec discusses).  For the per-request variant each call owns a fresh `IB`
handle whose open/closed state is tracked as ground truth.
-/

namespace IBKR

/-- JSON-like values, as parsed from request bodies by flask `request.get_json()`
and produced in response bodies by `jsonify`.  JSON numbers are modelled as
integers only (all numbers appearing in the service are integers). -/
inductive JVal where
  | null
  | bool (b : Bool)
  | int (n : Int)
  | str (s : String)
  | arr (elems : List JVal)
  | obj (fields : List (String × JVal))

/-- A JSON object body: an ordered list of key/value pairs (Python dict). -/
abbrev JObj := List (String × JVal)

/-- Python `k in d` for a dict: key membership. -/
def hasKey (o : JObj) (k : String) : Bool :=
  o.any fun p => p.1 == k

/-- Python `d[k]` lookup on a dict, first matching key. -/
def lookupField (fields : JObj) (k : String) : Option JVal :=
  match fields with
  | [] => none
  | (k2, v) :: rest => if k2 == k then some v else lookupField rest k

/-- Python `s.upper()` on a string (ASCII uppercasing, character by
character). -/
def strUpper (s : String) : String :=
  String.mk (s.data.map Char.toUpper)

/-- Extract the message of an ErrorResult `{error: <string>}` body, if any. -/
def errMsg (r : JObj) : Option String :=
  match lookupField r "error" with
  | some (.str s) => some s
  | _ => none

/-! Connection-identity configuration (src/app.py and src/api/index.py
lines 20-22; the documented defaults, environment overrides aside). -/

def IB_HOST : String := "127.0.0.1"

def IB_PORT : Int := 7497

def CLIENT_ID : Int := 1

/-- One primitive call to the brokerage gateway client, as recorded in an
operation's trace. -/
inductive GCall where
  | isConnectedCall (result : Bool)
  | connectAsyncCall
  | managedAccountsCall
  | qualifyCall (symbol exchange currency : String)
  | placeOrderCall (action : String) (quantity : Int)
  | sleepCall
  | disconnectCall

/-- Does the trace contain a `connectAsync` handshake? -/
def hasConnectAsync (tr : List GCall) : Bool :=
  tr.any fun c => match c with | .connectAsyncCall => true | _ => false

/-- Number of `connectAsync` handshakes in the trace. -/
def countConnectAsync (tr : List GCall) : Nat :=
  tr.countP fun c => match c with | .connectAsyncCall => true | _ => false

/-- Does the trace contain an `isConnected` liveness check? -/
def hasIsConnected (tr : List GCall) : Bool :=
  tr.any fun c => match c with | .isConnectedCall _ => true | _ => false

/-- Does the trace contain a `managedAccounts` query? -/
def hasManagedAccounts (tr : List GCall) : Bool :=
  tr.any fun c => match c with | .managedAccountsCall => true | _ => false

/-- Does the trace contain a contract-qualification call? -/
def hasQualify (tr : List GCall) : Bool :=
  tr.any fun c => match c with | .qualifyCall _ _ _ => true | _ => false

/-- Does the trace contain an order placement? -/
def hasPlaceOrder (tr : List GCall) : Bool :=
  tr.any fun c => match c with | .placeOrderCall _ _ => true | _ => false

/-- Every qualification call in the trace resolves `symbol` on venue "SMART"
in currency "USD" (the `Stock(symbol, 'SMART', 'USD')` contract). -/
def qualifyArgsOk (tr : List GCall) (symbol : String) : Bool :=
  tr.all fun c => match c with
    | .qualifyCall s e cur => s == symbol && e == "SMART" && cur == "USD"
    | _ => true

/-- Every order placement in the trace carries the given action string. -/
def placeActionsAll (tr : List GCall) (a : String) : Bool :=
  tr.all fun c => match c with
    | .placeOrderCall act _ => act == a
    | _ => true

/-- The body's `order_type` field, when present, is "MARKET". -/
def orderTypeOk (r : JObj) : Bool :=
  match lookupField r "order_type" with
  | none => true
  | some (.str s) => s == "MARKET"
  | some _ => false

/-! ## Long-lived variant (src/api/index.py): gateway environment and state -/

/-- Gateway behaviour for the long-lived variant.  `live n` is the result of
the n-th `isConnected()` call on the shared client (the connection can drop
between checks); the remaining fields give the outcome of each fallible
gateway call, `Except.error m` meaning the call raises with message `m`. -/
structure GatewayL where
  live : Nat → Bool
  connectResult : Except String Unit
  accountsResult : Except String (List String)
  qualifyResult : String → Except String (List String)
  placeResult : Except String (Int × String)

/-- Mutable state of the long-lived `IBKRTrader`: the cached `connected`
flag, and the count of `isConnected()` calls made so far (the cursor into
the `live` oracle). -/
structure StateL where
  connected : Bool
  tick : Nat

/-- Outcome of the long-lived `connect`: its boolean return value, the
updated trader state, and the gateway calls performed. -/
structure ConnOutL where
  ok : Bool
  state : StateL
  trace : List GCall

/-- Outcome of a long-lived trader operation: the returned dict, the updated
trader state, and the gateway calls performed. -/
structure OpOutL where
  result : JObj
  state : StateL
  trace : List GCall

/-- IBKRTrader.connect of the long-lived variant (src/api/index.py lines
29-50): skip the handshake if `self.ib.isConnected()`, otherwise
`connectAsync` and verify; exceptions are caught, clearing the flag. -/
def idx_connect (g : GatewayL) (st : StateL) : ConnOutL :=
  let v0 := g.live st.tick
  let st1 : StateL := ⟨st.connected, st.tick + 1⟩
  if v0 then
    ⟨true, ⟨true, st1.tick⟩, [.isConnectedCall v0]⟩
  else
    match g.connectResult with
    | .error _ =>
        ⟨false, ⟨false, st1.tick⟩, [.isConnectedCall v0, .connectAsyncCall]⟩
    | .ok _ =>
        let v1 := g.live st1.tick
        let st2 : StateL := ⟨st1.connected, st1.tick + 1⟩
        if v1 then
          ⟨true, ⟨true, st2.tick⟩,
            [.isConnectedCall v0, .connectAsyncCall, .isConnectedCall v1]⟩
        else
          ⟨false, ⟨false, st2.tick⟩,
            [.isConnectedCall v0, .connectAsyncCall, .isConnectedCall v1]⟩

/-- The success report of `test_connection` (identical dict literal in both
variants). -/
def tcSuccessObj (accounts : List String) : JObj :=
  [("success", .bool true), ("connected", .bool true),
   ("accounts", .arr (accounts.map JVal.str)),
   ("host", .str IB_HOST), ("port", .int IB_PORT), ("client_id", .int CLIENT_ID)]

/-- IBKRTrader.test_connection of the long-lived variant (src/api/index.py
lines 52-75): if the cached flag is down, `connectAsync` and set the flag;
then query `managedAccounts`; any exception clears the flag and returns the
bare failure report. -/
def idx_test_connection (g : GatewayL) (st : StateL) : OpOutL :=
  if st.connected then
    match g.accountsResult with
    | .ok accounts =>
        ⟨tcSuccessObj accounts, st, [.managedAccountsCall]⟩
    | .error _ =>
        ⟨[("success", .bool false)], ⟨false, st.tick⟩, [.managedAccountsCall]⟩
  else
    match g.connectResult with
    | .error _ =>
        ⟨[("success", .bool false)], ⟨false, st.tick⟩, [.connectAsyncCall]⟩
    | .ok _ =>
        match g.accountsResult with
        | .ok accounts =>
            ⟨tcSuccessObj accounts, ⟨true, st.tick⟩,
              [.connectAsyncCall, .managedAccountsCall]⟩
        | .error _ =>
            ⟨[("success", .bool false)], ⟨false, st.tick⟩,
              [.connectAsyncCall, .managedAccountsCall]⟩

/-- The success report of `place_market_order` (identical dict literal in
both variants). -/
def orderSuccessObj (oid : Int) (symbol action : String) (quantity : Int)
    (status : String) : JObj :=
  [("success", .bool true), ("order_id", .int oid), ("symbol", .str symbol),
   ("action", .str action), ("quantity", .int quantity),
   ("order_type", .str "MARKET"), ("status", .str status)]

/-- Continuation of the long-lived `place_market_order` after the connect
section (src/api/index.py lines 92-129): re-check liveness, qualify the
`Stock(symbol, 'SMART', 'USD')` contract, place the market order with the
upper-cased action, sleep, and report; gateway exceptions clear the flag
and become `{"error": msg}`. -/
def idx_pmkt_rest (g : GatewayL) (st : StateL) (symbol action : String)
    (quantity : Int) : OpOutL :=
  let v := g.live st.tick
  let st1 : StateL := ⟨st.connected, st.tick + 1⟩
  if !v then
    ⟨[("error", .str "No active connection to IBKR")], st1, [.isConnectedCall v]⟩
  else
    let tr2 : List GCall := [.isConnectedCall v, .qualifyCall symbol "SMART" "USD"]
    match g.qualifyResult symbol with
    | .error m =>
        ⟨[("error", .str m)], ⟨false, st1.tick⟩, tr2⟩
    | .ok [] =>
        ⟨[("error", .str ("Could not qualify contract for symbol " ++ symbol))],
          st1, tr2⟩
    | .ok (_ :: _) =>
        let tr3 := tr2 ++ [.placeOrderCall (strUpper action) quantity]
        match g.placeResult with
        | .error m =>
            ⟨[("error", .str m)], ⟨false, st1.tick⟩, tr3⟩
        | .ok (oid, status) =>
            ⟨orderSuccessObj oid symbol action quantity status, st1,
              tr3 ++ [.sleepCall]⟩

/-- IBKRTrader.place_market_order of the long-lived variant
(src/api/index.py lines 83-129): check `self.ib.isConnected()` (never the
cached flag alone), reconnect if needed, re-check liveness, then qualify
and place. -/
def idx_place_market_order (g : GatewayL) (st : StateL)
    (symbol action : String) (quantity : Int) : OpOutL :=
  let v0 := g.live st.tick
  let st1 : StateL := ⟨st.connected, st.tick + 1⟩
  let tr0 : List GCall := [.isConnectedCall v0]
  if v0 then
    let r := idx_pmkt_rest g st1 symbol action quantity
    ⟨r.result, r.state, tr0 ++ r.trace⟩
  else
    let st2 : StateL := ⟨false, st1.tick⟩
    let c := idx_connect g st2
    if c.ok then
      let r := idx_pmkt_rest g c.state symbol action quantity
      ⟨r.result, r.state, tr0 ++ c.trace ++ r.trace⟩
    else
      ⟨[("error", .str "Failed to connect to IBKR")], c.state, tr0 ++ c.trace⟩

/-! ## Per-request variant (src/app.py): gateway environment and state -/

/-- Gateway behaviour for the per-request variant.  `connectResult` is the
outcome of `connectAsync` on a fresh `IB()`; `connectLanding` says whether
the session is actually live after a non-raising `connectAsync` (the SDK
can report the call completed while the session never reached a connected
state). -/
structure GatewayP where
  connectResult : Except String Unit
  connectLanding : Bool
  accountsResult : Except String (List String)
  qualifyResult : String → Except String (List String)
  placeResult : Except String (Int × String)

/-- The per-call `IB` instance of the per-request variant: whether it holds
an open gateway connection.  `isConnected()` on the handle reads this
ground truth; `disconnect()` clears it. -/
structure IBHandle where
  openConn : Bool

/-- Outcome of the per-request `connect`: the returned handle (`none` for
Python `None`), the cached flag, and the gateway calls performed. -/
structure ConnOutP where
  ib : Option IBHandle
  connected : Bool
  trace : List GCall

/-- Outcome of a per-request trader operation: the returned dict, the cached
flag, the gateway calls performed, and the final state of the per-call `IB`
handle (used to express resource cleanup). -/
structure OpOutP where
  result : JObj
  connected : Bool
  trace : List GCall
  ib : Option IBHandle

/-- IBKRTrader.connect of the per-request variant (src/app.py lines 28-46):
build a fresh `IB()`, `connectAsync`, and return the instance only if
`isConnected()` verifies; exceptions are caught, clearing the flag. -/
def app_connect (g : GatewayP) : ConnOutP :=
  match g.connectResult with
  | .error _ =>
      ⟨none, false, [.connectAsyncCall]⟩
  | .ok _ =>
      let ib : IBHandle := ⟨g.connectLanding⟩
      if ib.openConn then
        ⟨some ib, true, [.connectAsyncCall, .isConnectedCall ib.openConn]⟩
      else
        ⟨none, false, [.connectAsyncCall, .isConnectedCall ib.openConn]⟩

/-- The `finally` block shared by both per-request operations (src/app.py
lines 83-85 and 133-135): `if ib and ib.isConnected(): ib.disconnect()`.
Returns the calls it performs and the final handle state. -/
def app_finally (ibOpt : Option IBHandle) : List GCall × Option IBHandle :=
  match ibOpt with
  | none => ([], none)
  | some ib =>
      if ib.openConn then
        ([.isConnectedCall true, .disconnectCall], some ⟨false⟩)
      else
        ([.isConnectedCall false], some ib)

/-- Whether the operation's per-call gateway connection is still open when
the operation returns. -/
def handleOpen (ibOpt : Option IBHandle) : Bool :=
  match ibOpt with
  | none => false
  | some ib => ib.openConn

/-- The connect-failure report of the per-request `test_connection`. -/
def tcFailEstablishObj : JObj :=
  [("success", .bool false), ("error", .str "Failed to establish connection"),
   ("host", .str IB_HOST), ("port", .int IB_PORT), ("client_id", .int CLIENT_ID)]

/-- The exception-failure report of the per-request `test_connection`. -/
def tcFailExcObj (m : String) : JObj :=
  [("success", .bool false), ("error", .str m),
   ("host", .str IB_HOST), ("port", .int IB_PORT), ("client_id", .int CLIENT_ID)]

/-- IBKRTrader.test_connection of the per-request variant (src/app.py lines
48-85): connect a fresh client, query `managedAccounts`, and in all cases
run the `finally` teardown; failure reports carry host/port/client_id. -/
def app_test_connection (g : GatewayP) : OpOutP :=
  let c := app_connect g
  match c.ib with
  | none =>
      let (trF, ibF) := app_finally none
      ⟨tcFailEstablishObj, c.connected, c.trace ++ trF, ibF⟩
  | some ib =>
      match g.accountsResult with
      | .ok accounts =>
          let (trF, ibF) := app_finally (some ib)
          ⟨tcSuccessObj accounts, c.connected,
            c.trace ++ [.managedAccountsCall] ++ trF, ibF⟩
      | .error m =>
          let (trF, ibF) := app_finally (some ib)
          ⟨tcFailExcObj m, false,
            c.trace ++ [.managedAccountsCall] ++ trF, ibF⟩

/-- IBKRTrader.place_market_order of the per-request variant (src/app.py
lines 91-135): connect a fresh client, qualify the
`Stock(symbol, 'SMART', 'USD')` contract, place the market order with the
upper-cased action, sleep, report; exceptions clear the flag and become
`{"error": msg}`; every path runs the `finally` teardown. -/
def app_place_market_order (g : GatewayP) (symbol action : String)
    (quantity : Int) : OpOutP :=
  let c := app_connect g
  match c.ib with
  | none =>
      let (trF, ibF) := app_finally none
      ⟨[("error", .str "Failed to connect to IBKR")], c.connected,
        c.trace ++ trF, ibF⟩
  | some ib =>
      let tr2 := c.trace ++ [.qualifyCall symbol "SMART" "USD"]
      match g.qualifyResult symbol with
      | .error m =>
          let (trF, ibF) := app_finally (some ib)
          ⟨[("error", .str m)], false, tr2 ++ trF, ibF⟩
      | .ok [] =>
          let (trF, ibF) := app_finally (some ib)
          ⟨[("error",
              .str ("Could not qualify contract for symbol " ++ symbol))],
            c.connected, tr2 ++ trF, ibF⟩
      | .ok (_ :: _) =>
          let tr3 := tr2 ++ [.placeOrderCall (strUpper action) quantity]
          match g.placeResult with
          | .error m =>
              let (trF, ibF) := app_finally (some ib)
              ⟨[("error", .str m)], false, tr3 ++ trF, ibF⟩
          | .ok (oid, status) =>
              let (trF, ibF) := app_finally (some ib)
              ⟨orderSuccessObj oid symbol action quantity status, c.connected,
                tr3 ++ [.sleepCall] ++ trF, ibF⟩

/-! ## HTTP route layer (identical glue in both variants) -/

/-- Python substring test `sub in s` for a non-empty `sub`. -/
def strContains (s sub : String) : Bool :=
  (s.splitOn sub).length ≥ 2

/-- Python membership `k in data` on a parsed JSON value: key membership on
dicts, element equality on lists, substring on strings; `TypeError` on the
non-iterable types. -/
def pyContains (v : JVal) (k : String) : Except String Bool :=
  match v with
  | .obj fields => .ok (hasKey fields k)
  | .arr elems =>
      .ok (elems.any fun e => match e with | .str s => s == k | _ => false)
  | .str s => .ok (strContains s k)
  | .null => .error "argument of type 'NoneType' is not iterable"
  | .bool _ => .error "argument of type 'bool' is not iterable"
  | .int _ => .error "argument of type 'int' is not iterable"

/-- Python subscript `data[k]` with a string key: dict lookup; `TypeError`
on strings, lists and the other non-mapping types. -/
def pySubscript (v : JVal) (k : String) : Except String JVal :=
  match v with
  | .obj fields =>
      match lookupField fields k with
      | some x => .ok x
      | none => .error ("KeyError: '" ++ k ++ "'")
  | .str _ => .error "string indices must be integers"
  | .arr _ => .error "list indices must be integers or slices, not str"
  | .null => .error "'NoneType' object is not subscriptable"
  | .bool _ => .error "'bool' object is not subscriptable"
  | .int _ => .error "'int' object is not subscriptable"

/-- Python `x.upper()`: defined on strings, `AttributeError` otherwise. -/
def pyUpper (v : JVal) : Except String String :=
  match v with
  | .str s => .ok (strUpper s)
  | .null => .error "'NoneType' object has no attribute 'upper'"
  | .bool _ => .error "'bool' object has no attribute 'upper'"
  | .int _ => .error "'int' object has no attribute 'upper'"
  | .arr _ => .error "'list' object has no attribute 'upper'"
  | .obj _ => .error "'dict' object has no attribute 'upper'"

/-- Decimal digits to a natural number (the accumulator form of Python's
`int` parse); `none` on the first non-digit. -/
def digitsToNat (ds : List Char) (acc : Nat) : Option Nat :=
  match ds with
  | [] => some acc
  | c :: rest =>
      if c.isDigit then digitsToNat rest (acc * 10 + (c.toNat - 48))
      else none

/-- Python `int(s)` on a string: an optional sign followed by at least one
decimal digit (surrounding whitespace is not modelled). -/
def strToInt (s : String) : Option Int :=
  match s.data with
  | [] => none
  | '-' :: rest =>
      match rest with
      | [] => none
      | _ => (digitsToNat rest 0).map fun n => -(n : Int)
  | '+' :: rest =>
      match rest with
      | [] => none
      | _ => (digitsToNat rest 0).map fun n => (n : Int)
  | ds => (digitsToNat ds 0).map fun n => (n : Int)

/-- Python `int(x)`: identity on ints, 1/0 on booleans, decimal parse on
strings (`ValueError` when unparsable), `TypeError` on the rest. -/
def pyToInt (v : JVal) : Except String Int :=
  match v with
  | .int n => .ok n
  | .bool b => .ok (if b then 1 else 0)
  | .str s =>
      match strToInt s with
      | some n => .ok n
      | none => .error ("invalid literal for int() with base 10: '" ++ s ++ "'")
  | .null => .error "int() argument cannot be 'NoneType'"
  | .arr _ => .error "int() argument cannot be 'list'"
  | .obj _ => .error "int() argument cannot be 'dict'"

/-- The 400 validation body of the /buy and /sell routes. -/
def missingFieldsObj : JObj :=
  [("error", .str "Missing required fields: symbol and quantity")]

/-- An HTTP response from an order route: status code, JSON body, the
gateway calls made while handling the request, and the
`place_market_order` arguments if the trader was invoked (`none` when the
request never reached the trader). -/
structure RouteOut where
  status : Nat
  body : JObj
  trace : List GCall
  invoked : Option (String × Int)

/-- Body of the try block of the /buy and /sell handlers (src/app.py lines
191-207 and src/api/index.py lines 172-188), abstracted over the trader
call `pm symbol quantity`: parse the body, validate presence of `symbol`
and `quantity` (short-circuiting to 400), uppercase the symbol, coerce the
quantity, run the trader, and map an `error` key to 500 else 200.  A raised
exception is `Except.error msg`. -/
def order_route_try (pm : String → Int → JObj × List GCall)
    (reqBody : Option JVal) : Except String RouteOut :=
  match reqBody with
  | none => .error "Failed to decode JSON object"
  | some data =>
    match pyContains data "symbol" with
    | .error e => .error e
    | .ok hasSym =>
      if !hasSym then .ok ⟨400, missingFieldsObj, [], none⟩
      else
        match pyContains data "quantity" with
        | .error e => .error e
        | .ok hasQty =>
          if !hasQty then .ok ⟨400, missingFieldsObj, [], none⟩
          else
            match pySubscript data "symbol" with
            | .error e => .error e
            | .ok symVal =>
              match pyUpper symVal with
              | .error e => .error e
              | .ok symbol =>
                match pySubscript data "quantity" with
                | .error e => .error e
                | .ok qtyVal =>
                  match pyToInt qtyVal with
                  | .error e => .error e
                  | .ok quantity =>
                    if hasKey (pm symbol quantity).1 "error" then
                      .ok ⟨500, (pm symbol quantity).1, (pm symbol quantity).2,
                        some (symbol, quantity)⟩
                    else
                      .ok ⟨200, (pm symbol quantity).1, (pm symbol quantity).2,
                        some (symbol, quantity)⟩

/-- A /buy or /sell handler: the try body with its catch-all
`except Exception` returning 500 `{"error": str(e)}`. -/
def order_route (pm : String → Int → JObj × List GCall)
    (reqBody : Option JVal) : RouteOut :=
  match order_route_try pm reqBody with
  | .ok out => out
  | .error e => ⟨500, [("error", .str e)], [], none⟩

/-- The /buy route of the per-request variant (src/app.py lines 188-211):
the action is the literal 'BUY'. -/
def app_buy_route (g : GatewayP) (reqBody : Option JVal) : RouteOut :=
  order_route (fun s q =>
    let o := app_place_market_order g s "BUY" q
    (o.result, o.trace)) reqBody

/-- The /sell route of the per-request variant (src/app.py lines 213-236):
the action is the literal 'SELL'. -/
def app_sell_route (g : GatewayP) (reqBody : Option JVal) : RouteOut :=
  order_route (fun s q =>
    let o := app_place_market_order g s "SELL" q
    (o.result, o.trace)) reqBody

/-- The /buy route of the long-lived variant (src/api/index.py lines
169-192): the action is the literal 'BUY'. -/
def idx_buy_route (g : GatewayL) (st : StateL) (reqBody : Option JVal) :
    RouteOut :=
  order_route (fun s q =>
    let o := idx_place_market_order g st s "BUY" q
    (o.result, o.trace)) reqBody

/-- The /sell route of the long-lived variant (src/api/index.py lines
194-217): the action is the literal 'SELL'. -/
def idx_sell_route (g : GatewayL) (st : StateL) (reqBody : Option JVal) :
    RouteOut :=
  order_route (fun s q =>
    let o := idx_place_market_order g st s "SELL" q
    (o.result, o.trace)) reqBody

/-- The /test-connection route of the per-request variant (src/app.py lines
178-186): it returns the trader's report with the default status 200 (the
500 branch fires only if the handler itself raises, which the trader,
catching every exception, never causes). -/
def app_test_connection_route (g : GatewayP) : Nat × JObj :=
  (200, (app_test_connection g).result)

/-- The /test-connection route of the long-lived variant (src/api/index.py
lines 159-167): same glue as the per-request variant. -/
def idx_test_connection_route (g : GatewayL) (st : StateL) : Nat × JObj :=
  (200, (idx_test_connection g st).result)

/-! ## Sample gateway environments used in concrete evaluations -/

/-- A healthy long-lived gateway: always live, every call succeeds. -/
def gL0 : GatewayL :=
  ⟨fun _ => true, .ok (), .ok ["DU111"], fun _ => .ok ["conId265598"],
    .ok (7, "Submitted")⟩

/-- A long-lived gateway that is never live and whose connect attempt
raises "boom". -/
def gLconnFail : GatewayL :=
  ⟨fun _ => false, .error "boom", .ok ["DU111"], fun _ => .ok ["conId265598"],
    .ok (7, "Submitted")⟩

/-- A long-lived gateway whose connection is dead at every liveness check
(the stale-cached-flag scenario), all other calls succeeding. -/
def gLdead : GatewayL :=
  ⟨fun _ => false, .ok (), .ok ["DU111"], fun _ => .ok ["conId265598"],
    .ok (7, "Submitted")⟩

/-- A long-lived gateway that is live at the first check and drops before
every later one (an external disconnect between two checks). -/
def gLdrop : GatewayL :=
  ⟨fun n => n == 0, .ok (), .ok ["DU111"], fun _ => .ok ["conId265598"],
    .ok (7, "Submitted")⟩

/-- A long-lived gateway that is down at the first liveness check and live
from the second one on (a successful reconnect). -/
def gLlate : GatewayL :=
  ⟨fun n => n != 0, .ok (), .ok ["DU111"], fun _ => .ok ["conId265598"],
    .ok (7, "Submitted")⟩

/-- A long-lived gateway whose qualification returns no contract. -/
def gLqualifyEmpty : GatewayL :=
  ⟨fun _ => true, .ok (), .ok ["DU111"], fun _ => .ok [], .ok (7, "Submitted")⟩

/-- A long-lived gateway whose qualification call raises "qboom". -/
def gLqualifyRaise : GatewayL :=
  ⟨fun _ => true, .ok (), .ok ["DU111"], fun _ => .error "qboom",
    .ok (7, "Submitted")⟩

/-- A healthy per-request gateway: every call succeeds. -/
def gP0 : GatewayP :=
  ⟨.ok (), true, .ok ["DU111"], fun _ => .ok ["conId265598"],
    .ok (7, "Submitted")⟩

/-- A per-request gateway whose connect attempt raises "boom". -/
def gPconnFail : GatewayP :=
  ⟨.error "boom", true, .ok ["DU111"], fun _ => .ok ["conId265598"],
    .ok (7, "Submitted")⟩

/-- A per-request gateway whose connectAsync completes but whose session
never reaches a connected state. -/
def gPnoLand : GatewayP :=
  ⟨.ok (), false, .ok ["DU111"], fun _ => .ok ["conId265598"],
    .ok (7, "Submitted")⟩

/-- A per-request gateway whose qualification returns no contract. -/
def gPqualifyEmpty : GatewayP :=
  ⟨.ok (), true, .ok ["DU111"], fun _ => .ok [], .ok (7, "Submitted")⟩

/-- A per-request gateway whose qualification call raises "qboom". -/
def gPqualifyRaise : GatewayP :=
  ⟨.ok (), true, .ok ["DU111"], fun _ => .error "qboom", .ok (7, "Submitted")⟩

/-! ## Claim C1 -/

/-- C1 counterexample: the claim says the cached `connected` flag is never
trusted without re-verifying liveness via `isConnected` in every
BrokerSession operation of both variants.  In the long-lived variant,
`test_connection` run with the cached flag `true` against a gateway that is
dead at every liveness check performs no `isConnected` call at all — its
only gateway call is `managedAccounts` — and still reports
`success: true, connected: true`: the stale flag is trusted outright. -/
theorem C1_counterexample :
    (idx_test_connection gLdead ⟨true, 0⟩).trace = [GCall.managedAccountsCall] ∧
    hasIsConnected (idx_test_connection gLdead ⟨true, 0⟩).trace = false ∧
    (idx_test_connection gLdead ⟨true, 0⟩).result = tcSuccessObj ["DU111"] :=
  ⟨rfl, rfl, rfl⟩

/-- C1 amended: in the long-lived variant, `place_market_order` (alone
among the operations) never trusts the cached flag: its first gateway call
is always an `isConnected` check, and when the defensive re-check after the
connect section reports the connection down it returns
`{"error": "No active connection to IBKR"}` without qualifying or placing.
In the per-request variant, `connect` itself verifies liveness via
`isConnected` on the fresh client, and a connect attempt that completes
without reaching a live session makes `place_market_order` return
`{"error": "Failed to connect to IBKR"}` without qualifying or placing.
The long-lived `test_connection`, by contrast, trusts the cached flag (the
counterexample). -/
theorem C1_amended :
    (∀ (g : GatewayL) (st : StateL) (symbol action : String) (quantity : Int),
      (idx_place_market_order g st symbol action quantity).trace.head? =
        some (GCall.isConnectedCall (g.live st.tick))) ∧
    (∀ (g : GatewayL) (st : StateL) (symbol action : String) (quantity : Int),
      g.live st.tick = true → g.live (st.tick + 1) = false →
        (idx_place_market_order g st symbol action quantity).result =
          [("error", JVal.str "No active connection to IBKR")] ∧
        hasQualify (idx_place_market_order g st symbol action quantity).trace
          = false ∧
        hasPlaceOrder (idx_place_market_order g st symbol action quantity).trace
          = false) ∧
    (∀ (g : GatewayP) (symbol action : String) (quantity : Int),
      g.connectResult = Except.ok () → g.connectLanding = false →
        (app_place_market_order g symbol action quantity).result =
          [("error", JVal.str "Failed to connect to IBKR")] ∧
        hasQualify (app_place_market_order g symbol action quantity).trace
          = false ∧
        hasPlaceOrder (app_place_market_order g symbol action quantity).trace
          = false) := by
  refine ⟨?_, ?_, ?_⟩
  · intro g st symbol action quantity
    unfold idx_place_market_order
    by_cases h : g.live st.tick
    · simp [h]
    · simp only [h, Bool.false_eq_true, if_false]
      split <;> simp
  · intro g st symbol action quantity h1 h2
    unfold idx_place_market_order idx_pmkt_rest
    simp [h1, h2, hasQualify, hasPlaceOrder]
  · intro g symbol action quantity h1 h2
    unfold app_place_market_order app_connect app_finally
    simp [h1, h2, hasQualify, hasPlaceOrder]

/-- C1 witness: the amended statement applied to concrete gateways — a
live-then-dropped long-lived gateway yields the "No active connection"
error, and a per-request connect that never lands yields the
"Failed to connect" error. -/
theorem C1_witness :
    (idx_place_market_order gLdrop ⟨true, 0⟩ "AAPL" "BUY" 1).result =
      [("error", JVal.str "No active connection to IBKR")] ∧
    (app_place_market_order gPnoLand "AAPL" "BUY" 1).result =
      [("error", JVal.str "Failed to connect to IBKR")] :=
  ⟨(C1_amended.2.1 gLdrop ⟨true, 0⟩ "AAPL" "BUY" 1 (by decide) (by decide)).1,
   (C1_amended.2.2 gPnoLand "AAPL" "BUY" 1 rfl rfl).1⟩

/-! ## Claim C2 -/

/-- C2 counterexample: the claim says every failed `testConnection` in
either variant returns a report carrying `host`, `port` and `client_id`.
In the long-lived variant, a failed connect attempt makes
`test_connection` return exactly `{"success": false}` — no `host` key (nor
`port` nor `client_id`). -/
theorem C2_counterexample :
    (idx_test_connection gLconnFail ⟨false, 0⟩).result =
      [("success", JVal.bool false)] ∧
    hasKey (idx_test_connection gLconnFail ⟨false, 0⟩).result "host" = false ∧
    hasKey (idx_test_connection gLconnFail ⟨false, 0⟩).result "port" = false ∧
    hasKey (idx_test_connection gLconnFail ⟨false, 0⟩).result "client_id"
      = false :=
  ⟨rfl, by decide, by decide, by decide⟩

/-- C2 amended: in the per-request variant every failed `test_connection`
report carries `host`, `port` and `client_id` and no `accounts` data; in
the long-lived variant the failure report is exactly `{"success": false}`
(so it also carries no account data, but no connection parameters
either). -/
theorem C2_amended :
    (∀ (g : GatewayP),
      lookupField (app_test_connection g).result "success" =
          some (JVal.bool false) →
        hasKey (app_test_connection g).result "host" = true ∧
        hasKey (app_test_connection g).result "port" = true ∧
        hasKey (app_test_connection g).result "client_id" = true ∧
        hasKey (app_test_connection g).result "accounts" = false) ∧
    (∀ (g : GatewayL) (st : StateL),
      lookupField (idx_test_connection g st).result "success" =
          some (JVal.bool false) →
        (idx_test_connection g st).result = [("success", JVal.bool false)]) := by
  constructor
  · intro g h
    obtain ⟨cr, land, acc, qr, pr⟩ := g
    cases cr with
    | error m =>
        simp [app_test_connection, app_connect, app_finally, tcFailEstablishObj,
          hasKey] at h ⊢
    | ok u =>
        cases land with
        | false =>
            simp [app_test_connection, app_connect, app_finally,
              tcFailEstablishObj, hasKey] at h ⊢
        | true =>
            cases acc with
            | error m =>
                simp [app_test_connection, app_connect, app_finally,
                  tcFailExcObj, hasKey] at h ⊢
            | ok accounts =>
                simp [app_test_connection, app_connect, app_finally,
                  tcSuccessObj, lookupField] at h
  · intro g st h
    obtain ⟨live, cr, acc, qr, pr⟩ := g
    by_cases hc : st.connected
    · cases acc with
      | error m => simp [idx_test_connection, hc]
      | ok accounts =>
          simp [idx_test_connection, hc, tcSuccessObj, lookupField] at h
    · cases cr with
      | error m => simp [idx_test_connection, hc]
      | ok u =>
          cases acc with
          | error m => simp [idx_test_connection, hc]
          | ok accounts =>
              simp [idx_test_connection, hc, tcSuccessObj, lookupField] at h

/-- C2 witness: the amended statement applied to concrete failing
gateways in each variant. -/
theorem C2_witness :
    hasKey (app_test_connection gPconnFail).result "host" = true ∧
    (idx_test_connection gLconnFail ⟨false, 0⟩).result =
      [("success", JVal.bool false)] :=
  ⟨(C2_amended.1 gPconnFail rfl).1,
   C2_amended.2 gLconnFail ⟨false, 0⟩ rfl⟩

/-- The /buy trader call of the per-request variant against the healthy
gateway, in the shape the route glue consumes. -/
def pmP0buy : String → Int → JObj × List GCall := fun s q =>
  let o := app_place_market_order gP0 s "BUY" q
  (o.result, o.trace)

/-! ## Route-layer helper lemmas (shared by several claims) -/

/-- Characterization of the try body of an order route: it either returns
without invoking the trader (performing no gateway call), or it returns the
trader's result with the 500-iff-error-key status rule. -/
theorem order_route_try_cases (pm : String → Int → JObj × List GCall)
    (reqBody : Option JVal) (out : RouteOut)
    (h : order_route_try pm reqBody = Except.ok out) :
    out = ⟨400, missingFieldsObj, [], none⟩ ∨
    ∃ s q, out.invoked = some (s, q) ∧ out.body = (pm s q).1 ∧
      out.trace = (pm s q).2 ∧
      out.status = if hasKey (pm s q).1 "error" then 500 else 200 := by
  unfold order_route_try at h
  repeat' split at h
  all_goals first
    | exact Except.noConfusion h
    | (injection h with h; subst h;
       first
         | exact Or.inl rfl
         | (refine Or.inr ⟨_, _, rfl, rfl, rfl, ?_⟩; simp [*]))

/-- An order route given an object body missing `symbol` or `quantity`
returns the 400 validation response without invoking the trader. -/
theorem order_route_missing (pm : String → Int → JObj × List GCall)
    (fields : JObj)
    (h : hasKey fields "symbol" = false ∨ hasKey fields "quantity" = false) :
    order_route pm (some (JVal.obj fields)) = ⟨400, missingFieldsObj, [], none⟩ := by
  unfold order_route order_route_try
  rcases h with h | h
  · simp [pyContains, h]
  · by_cases hs : hasKey fields "symbol"
    · simp [pyContains, hs, h]
    · simp [pyContains, hs]

/-! ## Claim C3 -/

/-- C3 counterexample: the claim says every HTTP response produced from a
BrokerSession result has status 500 exactly when the body contains an
`error` key.  The /test-connection route returns the trader's report with
status 200 even when it carries an `error` key: with a gateway whose
connect attempt raises, the per-request `test_connection` returns a report
containing `error` and the route answers 200. -/
theorem C3_counterexample :
    (app_test_connection_route gPconnFail).1 = 200 ∧
    hasKey (app_test_connection_route gPconnFail).2 "error" = true :=
  ⟨rfl, by decide⟩

/-- C3 amended: the 500-iff-error-key rule holds for the /buy and /sell
routes — whenever such a route's response is the trader's result, the
status is 500 exactly when that result carries an `error` key and 200
exactly when it does not, and an object body missing a required field
short-circuits to 400 with no trader (hence no gateway) call — but the
/test-connection route of both variants returns the trader's report with
status 200 whether or not it carries an `error` key. -/
theorem C3_amended :
    (∀ (pm : String → Int → JObj × List GCall) (reqBody : Option JVal)
        (s : String) (q : Int),
      (order_route pm reqBody).invoked = some (s, q) →
        (order_route pm reqBody).body = (pm s q).1 ∧
        ((order_route pm reqBody).status = 500 ↔
          hasKey (pm s q).1 "error" = true) ∧
        ((order_route pm reqBody).status = 200 ↔
          hasKey (pm s q).1 "error" = false)) ∧
    (∀ (pm : String → Int → JObj × List GCall) (fields : JObj),
      hasKey fields "symbol" = false ∨ hasKey fields "quantity" = false →
        order_route pm (some (JVal.obj fields)) =
          ⟨400, missingFieldsObj, [], none⟩) ∧
    (∀ (g : GatewayP),
      (app_test_connection_route g).1 = 200 ∧
      (app_test_connection_route g).2 = (app_test_connection g).result) ∧
    (∀ (g : GatewayL) (st : StateL),
      (idx_test_connection_route g st).1 = 200 ∧
      (idx_test_connection_route g st).2 = (idx_test_connection g st).result) := by
  refine ⟨?_, order_route_missing, fun g => ⟨rfl, rfl⟩, fun g st => ⟨rfl, rfl⟩⟩
  intro pm reqBody s q hinv
  unfold order_route at hinv ⊢
  cases htry : order_route_try pm reqBody with
  | error e => rw [htry] at hinv; simp at hinv
  | ok out =>
      rw [htry] at hinv
      dsimp only at hinv ⊢
      rcases order_route_try_cases pm reqBody out htry with hout | ⟨s', q', hi, hb, _, hs⟩
      · rw [hout] at hinv; exact absurd hinv (by simp)
      · rw [hi] at hinv
        injection hinv with hinv
        have h1 : s' = s := congrArg Prod.fst hinv
        have h2 : q' = q := congrArg Prod.snd hinv
        rw [h1, h2] at hb hs
        refine ⟨hb, ?_, ?_⟩ <;> rw [hs] <;> by_cases hk : hasKey (pm s q).1 "error" <;>
          simp [hk]

/-- C3 witness: the amended statement applied to a concrete successful /buy
request (status 200, no error key) and to a concrete body missing both
fields (status 400). -/
theorem C3_witness :
    (order_route pmP0buy
        (some (JVal.obj [("symbol", JVal.str "aapl"), ("quantity", JVal.int 5)]))).status
      = 200 ∧
    order_route pmP0buy (some (JVal.obj [])) = ⟨400, missingFieldsObj, [], none⟩ :=
  ⟨((C3_amended.1 pmP0buy
      (some (JVal.obj [("symbol", JVal.str "aapl"), ("quantity", JVal.int 5)]))
      "AAPL" 5 (by decide)).2.2).mpr (by decide),
   C3_amended.2.1 pmP0buy [] (Or.inl rfl)⟩

/-! ## Claim C4 -/

/-- C4 counterexample: the claim says connect is idempotent in both
variants.  In the per-request variant `connect` builds a fresh `IB()` and
performs `connectAsync` unconditionally: after a first successful connect
(live handle returned, cached flag set), a second call performs a second
handshake — two successive calls perform two `connectAsync` handshakes
where the claim allows one. -/
theorem C4_counterexample :
    (app_connect gP0).ib.isSome = true ∧
    (app_connect gP0).connected = true ∧
    countConnectAsync ((app_connect gP0).trace ++ (app_connect gP0).trace) = 2 :=
  ⟨rfl, rfl, by decide⟩

/-- C4 amended: the long-lived variant's connect is idempotent — a first
call that reconnects successfully and a second call while the connection
is live return success both times with exactly one handshake in total, and
a call made while the connection is already live performs no handshake at
all — but the per-request variant's connect performs a `connectAsync`
handshake on every single call. -/
theorem C4_amended :
    (∀ (g : GatewayL) (st : StateL),
      g.live st.tick = false → g.connectResult = Except.ok () →
      g.live (st.tick + 1) = true → g.live (st.tick + 2) = true →
        (idx_connect g st).ok = true ∧
        (idx_connect g (idx_connect g st).state).ok = true ∧
        countConnectAsync ((idx_connect g st).trace ++
          (idx_connect g (idx_connect g st).state).trace) = 1) ∧
    (∀ (g : GatewayL) (st : StateL),
      g.live st.tick = true →
        (idx_connect g st).ok = true ∧
        hasConnectAsync (idx_connect g st).trace = false) ∧
    (∀ (g : GatewayP), hasConnectAsync (app_connect g).trace = true) := by
  refine ⟨?_, ?_, ?_⟩
  · intro g st h0 hc h1 h2
    simp [idx_connect, h0, hc, h1, h2, countConnectAsync, List.countP_cons,
      List.countP_nil]
  · intro g st h0
    simp [idx_connect, h0, hasConnectAsync]
  · intro g
    cases hc : g.connectResult with
    | error m => simp [app_connect, hc, hasConnectAsync]
    | ok u =>
        by_cases hl : g.connectLanding <;> simp [app_connect, hc, hl, hasConnectAsync]

/-- C4 witness: the amended statement applied to a concrete long-lived
gateway that is down at the first check and live afterwards, and to the
healthy per-request gateway. -/
theorem C4_witness :
    ((idx_connect gLlate ⟨false, 0⟩).ok = true ∧
      (idx_connect gLlate (idx_connect gLlate ⟨false, 0⟩).state).ok = true ∧
      countConnectAsync ((idx_connect gLlate ⟨false, 0⟩).trace ++
        (idx_connect gLlate (idx_connect gLlate ⟨false, 0⟩).state).trace) = 1) ∧
    hasConnectAsync (app_connect gP0).trace = true :=
  ⟨C4_amended.1 gLlate ⟨false, 0⟩ (by decide) rfl (by decide) (by decide),
   C4_amended.2.2 gP0⟩

/-! ## Claim C5 -/

/-- C5: a JSON-object body missing `symbol` or `quantity` sent to any of
the four order routes (both variants' /buy and /sell) yields HTTP 400 with
exactly the body `{"error": "Missing required fields: symbol and
quantity"}`, with no gateway call and no trader invocation. -/
theorem C5_validation
    (gP : GatewayP) (gL : GatewayL) (st : StateL) (fields : JObj)
    (h : hasKey fields "symbol" = false ∨ hasKey fields "quantity" = false) :
    app_buy_route gP (some (JVal.obj fields)) = ⟨400, missingFieldsObj, [], none⟩ ∧
    app_sell_route gP (some (JVal.obj fields)) = ⟨400, missingFieldsObj, [], none⟩ ∧
    idx_buy_route gL st (some (JVal.obj fields)) = ⟨400, missingFieldsObj, [], none⟩ ∧
    idx_sell_route gL st (some (JVal.obj fields)) = ⟨400, missingFieldsObj, [], none⟩ :=
  ⟨order_route_missing _ fields h, order_route_missing _ fields h,
   order_route_missing _ fields h, order_route_missing _ fields h⟩

/-- C5 witness: a /buy body carrying only `quantity` is rejected with the
validation error on the per-request variant's route. -/
theorem C5_witness :
    app_buy_route gP0 (some (JVal.obj [("quantity", JVal.int 5)])) =
      ⟨400, missingFieldsObj, [], none⟩ :=
  (C5_validation gP0 gL0 ⟨false, 0⟩ [("quantity", JVal.int 5)]
    (Or.inl (by decide))).1

/-! ## Trace lemmas for the gateway-call predicates -/

theorem hasQualify_append (a b : List GCall) :
    hasQualify (a ++ b) = (hasQualify a || hasQualify b) := by
  simp [hasQualify, List.any_append]

theorem hasPlaceOrder_append (a b : List GCall) :
    hasPlaceOrder (a ++ b) = (hasPlaceOrder a || hasPlaceOrder b) := by
  simp [hasPlaceOrder, List.any_append]

theorem hasConnectAsync_append (a b : List GCall) :
    hasConnectAsync (a ++ b) = (hasConnectAsync a || hasConnectAsync b) := by
  simp [hasConnectAsync, List.any_append]

theorem qualifyArgsOk_append (a b : List GCall) (s : String) :
    qualifyArgsOk (a ++ b) s = (qualifyArgsOk a s && qualifyArgsOk b s) := by
  simp [qualifyArgsOk, List.all_append]

theorem placeActionsAll_append (a b : List GCall) (s : String) :
    placeActionsAll (a ++ b) s = (placeActionsAll a s && placeActionsAll b s) := by
  simp [placeActionsAll, List.all_append]

theorem hasQualify_cons_ic (b : Bool) (l : List GCall) :
    hasQualify (GCall.isConnectedCall b :: l) = hasQualify l := by
  simp [hasQualify]

theorem hasPlaceOrder_cons_ic (b : Bool) (l : List GCall) :
    hasPlaceOrder (GCall.isConnectedCall b :: l) = hasPlaceOrder l := by
  simp [hasPlaceOrder]

theorem hasConnectAsync_cons_ic (b : Bool) (l : List GCall) :
    hasConnectAsync (GCall.isConnectedCall b :: l) = hasConnectAsync l := by
  simp [hasConnectAsync]

theorem qualifyArgsOk_cons_ic (b : Bool) (l : List GCall) (s : String) :
    qualifyArgsOk (GCall.isConnectedCall b :: l) s = qualifyArgsOk l s := by
  simp [qualifyArgsOk]

theorem placeActionsAll_cons_ic (b : Bool) (l : List GCall) (s : String) :
    placeActionsAll (GCall.isConnectedCall b :: l) s = placeActionsAll l s := by
  simp [placeActionsAll]

/-! ## Lemmas about the long-lived connect -/

theorem idx_connect_noQualify (g : GatewayL) (st : StateL) :
    hasQualify (idx_connect g st).trace = false := by
  unfold idx_connect
  by_cases l : g.live st.tick
  · simp [l, hasQualify]
  · cases hc : g.connectResult with
    | error m => simp [l, hc, hasQualify]
    | ok u =>
        by_cases l1 : g.live (st.tick + 1) <;> simp [l, hc, l1, hasQualify]

theorem idx_connect_noPlace (g : GatewayL) (st : StateL) :
    hasPlaceOrder (idx_connect g st).trace = false := by
  unfold idx_connect
  by_cases l : g.live st.tick
  · simp [l, hasPlaceOrder]
  · cases hc : g.connectResult with
    | error m => simp [l, hc, hasPlaceOrder]
    | ok u =>
        by_cases l1 : g.live (st.tick + 1) <;> simp [l, hc, l1, hasPlaceOrder]

theorem idx_connect_qualifyArgs (g : GatewayL) (st : StateL) (s : String) :
    qualifyArgsOk (idx_connect g st).trace s = true := by
  unfold idx_connect
  by_cases l : g.live st.tick
  · simp [l, qualifyArgsOk]
  · cases hc : g.connectResult with
    | error m => simp [l, hc, qualifyArgsOk]
    | ok u =>
        by_cases l1 : g.live (st.tick + 1) <;> simp [l, hc, l1, qualifyArgsOk]

theorem idx_connect_placeActions (g : GatewayL) (st : StateL) (a : String) :
    placeActionsAll (idx_connect g st).trace a = true := by
  unfold idx_connect
  by_cases l : g.live st.tick
  · simp [l, placeActionsAll]
  · cases hc : g.connectResult with
    | error m => simp [l, hc, placeActionsAll]
    | ok u =>
        by_cases l1 : g.live (st.tick + 1) <;> simp [l, hc, l1, placeActionsAll]

theorem idx_connect_ok_noHandshake (g : GatewayL) (st : StateL) (m : String)
    (hc : g.connectResult = Except.error m) :
    (idx_connect g st).ok = true →
      hasConnectAsync (idx_connect g st).trace = false := by
  unfold idx_connect
  by_cases l : g.live st.tick <;> simp [l, hc, hasConnectAsync]

theorem idx_connect_fail_state (g : GatewayL) (st : StateL) :
    (idx_connect g st).ok = false → (idx_connect g st).state.connected = false := by
  unfold idx_connect
  by_cases l : g.live st.tick
  · simp [l]
  · cases hc : g.connectResult with
    | error m => simp [l, hc]
    | ok u => by_cases l1 : g.live (st.tick + 1) <;> simp [l, hc, l1]

/-! ## Lemmas about the tail of the long-lived place_market_order -/

theorem idx_pmkt_rest_qualifyArgs (g : GatewayL) (st : StateL)
    (symbol action : String) (quantity : Int) :
    qualifyArgsOk (idx_pmkt_rest g st symbol action quantity).trace symbol
      = true := by
  unfold idx_pmkt_rest
  by_cases l : g.live st.tick
  · cases hq : g.qualifyResult symbol with
    | error m => simp [l, hq, qualifyArgsOk]
    | ok lst =>
        cases lst with
        | nil => simp [l, hq, qualifyArgsOk]
        | cons c cs =>
            cases hp : g.placeResult with
            | error m => simp [l, hq, hp, qualifyArgsOk]
            | ok pr =>
                obtain ⟨oid, stt⟩ := pr
                simp [l, hq, hp, qualifyArgsOk]
  · simp [l, qualifyArgsOk]

theorem idx_pmkt_rest_placeActions (g : GatewayL) (st : StateL)
    (symbol action : String) (quantity : Int) :
    placeActionsAll (idx_pmkt_rest g st symbol action quantity).trace
      (strUpper action) = true := by
  unfold idx_pmkt_rest
  by_cases l : g.live st.tick
  · cases hq : g.qualifyResult symbol with
    | error m => simp [l, hq, placeActionsAll]
    | ok lst =>
        cases lst with
        | nil => simp [l, hq, placeActionsAll]
        | cons c cs =>
            cases hp : g.placeResult with
            | error m => simp [l, hq, hp, placeActionsAll]
            | ok pr =>
                obtain ⟨oid, stt⟩ := pr
                simp [l, hq, hp, placeActionsAll]
  · simp [l, placeActionsAll]

theorem idx_pmkt_rest_noConnect (g : GatewayL) (st : StateL)
    (symbol action : String) (quantity : Int) :
    hasConnectAsync (idx_pmkt_rest g st symbol action quantity).trace = false := by
  unfold idx_pmkt_rest
  by_cases l : g.live st.tick
  · cases hq : g.qualifyResult symbol with
    | error m => simp [l, hq, hasConnectAsync]
    | ok lst =>
        cases lst with
        | nil => simp [l, hq, hasConnectAsync]
        | cons c cs =>
            cases hp : g.placeResult with
            | error m => simp [l, hq, hp, hasConnectAsync]
            | ok pr =>
                obtain ⟨oid, stt⟩ := pr
                simp [l, hq, hp, hasConnectAsync]
  · simp [l, hasConnectAsync]

theorem idx_pmkt_rest_qempty (g : GatewayL) (st : StateL)
    (symbol action : String) (quantity : Int)
    (hq : g.qualifyResult symbol = Except.ok []) :
    (hasQualify (idx_pmkt_rest g st symbol action quantity).trace = true →
      (idx_pmkt_rest g st symbol action quantity).result =
        [("error", JVal.str ("Could not qualify contract for symbol " ++ symbol))]) ∧
    hasPlaceOrder (idx_pmkt_rest g st symbol action quantity).trace = false := by
  unfold idx_pmkt_rest
  by_cases l : g.live st.tick <;> simp [l, hq, hasQualify, hasPlaceOrder]

theorem idx_pmkt_rest_qerror (g : GatewayL) (st : StateL)
    (symbol action : String) (quantity : Int) (m : String)
    (hq : g.qualifyResult symbol = Except.error m) :
    hasQualify (idx_pmkt_rest g st symbol action quantity).trace = true →
      (idx_pmkt_rest g st symbol action quantity).result =
        [("error", JVal.str m)] ∧
      (idx_pmkt_rest g st symbol action quantity).state.connected = false := by
  unfold idx_pmkt_rest
  by_cases l : g.live st.tick <;> simp [l, hq, hasQualify]

theorem idx_pmkt_rest_perror (g : GatewayL) (st : StateL)
    (symbol action : String) (quantity : Int) (m : String)
    (hp : g.placeResult = Except.error m) :
    hasPlaceOrder (idx_pmkt_rest g st symbol action quantity).trace = true →
      (idx_pmkt_rest g st symbol action quantity).result =
        [("error", JVal.str m)] ∧
      (idx_pmkt_rest g st symbol action quantity).state.connected = false := by
  unfold idx_pmkt_rest
  by_cases l : g.live st.tick
  · cases hq : g.qualifyResult symbol with
    | error m2 => simp [l, hq, hasPlaceOrder]
    | ok lst =>
        cases lst with
        | nil => simp [l, hq, hasPlaceOrder]
        | cons c cs => simp [l, hq, hp, hasPlaceOrder]
  · simp [l, hasPlaceOrder]

/-- Case decomposition of the long-lived `place_market_order`: the initial
liveness check passes and the tail runs; or the reconnect succeeds and the
tail runs; or the reconnect fails and the fixed connect error is
returned. -/
theorem idx_pmkt_decomp (g : GatewayL) (st : StateL) (symbol action : String)
    (quantity : Int) :
    (g.live st.tick = true ∧
      idx_place_market_order g st symbol action quantity =
        ⟨(idx_pmkt_rest g ⟨st.connected, st.tick + 1⟩ symbol action quantity).result,
          (idx_pmkt_rest g ⟨st.connected, st.tick + 1⟩ symbol action quantity).state,
          [GCall.isConnectedCall true] ++
            (idx_pmkt_rest g ⟨st.connected, st.tick + 1⟩ symbol action quantity).trace⟩) ∨
    (g.live st.tick = false ∧ (idx_connect g ⟨false, st.tick + 1⟩).ok = true ∧
      idx_place_market_order g st symbol action quantity =
        ⟨(idx_pmkt_rest g (idx_connect g ⟨false, st.tick + 1⟩).state
            symbol action quantity).result,
          (idx_pmkt_rest g (idx_connect g ⟨false, st.tick + 1⟩).state
            symbol action quantity).state,
          [GCall.isConnectedCall false] ++
            ((idx_connect g ⟨false, st.tick + 1⟩).trace ++
              (idx_pmkt_rest g (idx_connect g ⟨false, st.tick + 1⟩).state
                symbol action quantity).trace)⟩) ∨
    (g.live st.tick = false ∧ (idx_connect g ⟨false, st.tick + 1⟩).ok = false ∧
      idx_place_market_order g st symbol action quantity =
        ⟨[("error", JVal.str "Failed to connect to IBKR")],
          (idx_connect g ⟨false, st.tick + 1⟩).state,
          [GCall.isConnectedCall false] ++
            (idx_connect g ⟨false, st.tick + 1⟩).trace⟩) := by
  unfold idx_place_market_order
  by_cases l : g.live st.tick
  · exact Or.inl ⟨l, by simp [l]⟩
  · by_cases hok : (idx_connect g ⟨false, st.tick + 1⟩).ok
    · refine Or.inr (Or.inl ⟨by simpa using l, hok, ?_⟩)
      simp [l, hok]
    · refine Or.inr (Or.inr ⟨by simpa using l, by simpa using hok, ?_⟩)
      simp [l, hok]

/-! ## Lemmas about the per-request place_market_order -/

theorem app_pmkt_qualifyArgs (g : GatewayP) (symbol action : String)
    (quantity : Int) :
    qualifyArgsOk (app_place_market_order g symbol action quantity).trace symbol
      = true := by
  unfold app_place_market_order app_connect app_finally
  cases hc : g.connectResult with
  | error m => simp [hc, qualifyArgsOk]
  | ok u =>
      by_cases hl : g.connectLanding
      · cases hq : g.qualifyResult symbol with
        | error m => simp [hc, hl, hq, qualifyArgsOk]
        | ok lst =>
            cases lst with
            | nil => simp [hc, hl, hq, qualifyArgsOk]
            | cons c cs =>
                cases hp : g.placeResult with
                | error m => simp [hc, hl, hq, hp, qualifyArgsOk]
                | ok pr =>
                    obtain ⟨oid, stt⟩ := pr
                    simp [hc, hl, hq, hp, qualifyArgsOk]
      · simp [hc, hl, qualifyArgsOk]

theorem app_pmkt_placeActions (g : GatewayP) (symbol action : String)
    (quantity : Int) :
    placeActionsAll (app_place_market_order g symbol action quantity).trace
      (strUpper action) = true := by
  unfold app_place_market_order app_connect app_finally
  cases hc : g.connectResult with
  | error m => simp [hc, placeActionsAll]
  | ok u =>
      by_cases hl : g.connectLanding
      · cases hq : g.qualifyResult symbol with
        | error m => simp [hc, hl, hq, placeActionsAll]
        | ok lst =>
            cases lst with
            | nil => simp [hc, hl, hq, placeActionsAll]
            | cons c cs =>
                cases hp : g.placeResult with
                | error m => simp [hc, hl, hq, hp, placeActionsAll]
                | ok pr =>
                    obtain ⟨oid, stt⟩ := pr
                    simp [hc, hl, hq, hp, placeActionsAll]
      · simp [hc, hl, placeActionsAll]

theorem app_pmkt_qempty (g : GatewayP) (symbol action : String) (quantity : Int)
    (hq : g.qualifyResult symbol = Except.ok []) :
    (hasQualify (app_place_market_order g symbol action quantity).trace = true →
      (app_place_market_order g symbol action quantity).result =
        [("error", JVal.str ("Could not qualify contract for symbol " ++ symbol))]) ∧
    hasPlaceOrder (app_place_market_order g symbol action quantity).trace
      = false := by
  unfold app_place_market_order app_connect app_finally
  cases hc : g.connectResult with
  | error m => simp [hc, hasQualify, hasPlaceOrder]
  | ok u =>
      by_cases hl : g.connectLanding <;>
        simp [hc, hl, hq, hasQualify, hasPlaceOrder]

theorem app_pmkt_qerror (g : GatewayP) (symbol action : String) (quantity : Int)
    (m : String) (hq : g.qualifyResult symbol = Except.error m) :
    hasQualify (app_place_market_order g symbol action quantity).trace = true →
      (app_place_market_order g symbol action quantity).result =
        [("error", JVal.str m)] ∧
      (app_place_market_order g symbol action quantity).connected = false := by
  unfold app_place_market_order app_connect app_finally
  cases hc : g.connectResult with
  | error m2 => simp [hc, hasQualify]
  | ok u =>
      by_cases hl : g.connectLanding <;> simp [hc, hl, hq, hasQualify]

theorem app_pmkt_perror (g : GatewayP) (symbol action : String) (quantity : Int)
    (m : String) (hp : g.placeResult = Except.error m) :
    hasPlaceOrder (app_place_market_order g symbol action quantity).trace = true →
      (app_place_market_order g symbol action quantity).result =
        [("error", JVal.str m)] ∧
      (app_place_market_order g symbol action quantity).connected = false := by
  unfold app_place_market_order app_connect app_finally
  cases hc : g.connectResult with
  | error m2 => simp [hc, hasPlaceOrder]
  | ok u =>
      by_cases hl : g.connectLanding
      · cases hq : g.qualifyResult symbol with
        | error m2 => simp [hc, hl, hq, hasPlaceOrder]
        | ok lst =>
            cases lst with
            | nil => simp [hc, hl, hq, hasPlaceOrder]
            | cons c cs => simp [hc, hl, hq, hp, hasPlaceOrder]
      · simp [hc, hl, hasPlaceOrder]

theorem app_pmkt_cerror (g : GatewayP) (symbol action : String) (quantity : Int)
    (m : String) (hc : g.connectResult = Except.error m) :
    (app_place_market_order g symbol action quantity).result =
      [("error", JVal.str "Failed to connect to IBKR")] ∧
    (app_place_market_order g symbol action quantity).connected = false := by
  unfold app_place_market_order app_connect app_finally
  simp [hc]

/-! ## Claim C6 -/

/-- Every qualification call made by the long-lived `place_market_order`
resolves the requested symbol on "SMART"/"USD". -/
theorem idx_pmkt_args (g : GatewayL) (st : StateL) (symbol action : String)
    (quantity : Int) :
    qualifyArgsOk (idx_place_market_order g st symbol action quantity).trace
      symbol = true := by
  rcases idx_pmkt_decomp g st symbol action quantity with
    ⟨l, heq⟩ | ⟨l, hok, heq⟩ | ⟨l, hok, heq⟩ <;> rw [heq] <;>
    simp [qualifyArgsOk_append, qualifyArgsOk_cons_ic, idx_connect_qualifyArgs,
      idx_pmkt_rest_qualifyArgs]

/-- When qualification returns no contract, the long-lived
`place_market_order` reports the qualification error naming the symbol (if
qualification was reached at all) and never places an order. -/
theorem idx_pmkt_empty (g : GatewayL) (st : StateL) (symbol action : String)
    (quantity : Int) (hq : g.qualifyResult symbol = Except.ok []) :
    (hasQualify (idx_place_market_order g st symbol action quantity).trace = true →
      (idx_place_market_order g st symbol action quantity).result =
        [("error", JVal.str ("Could not qualify contract for symbol " ++ symbol))]) ∧
    hasPlaceOrder (idx_place_market_order g st symbol action quantity).trace
      = false := by
  rcases idx_pmkt_decomp g st symbol action quantity with
    ⟨l, heq⟩ | ⟨l, hok, heq⟩ | ⟨l, hok, heq⟩ <;> rw [heq]
  · have h2 := idx_pmkt_rest_qempty g ⟨st.connected, st.tick + 1⟩
      symbol action quantity hq
    simpa [hasQualify_append, hasQualify_cons_ic, hasPlaceOrder_append,
      hasPlaceOrder_cons_ic] using h2
  · have h2 := idx_pmkt_rest_qempty g (idx_connect g ⟨false, st.tick + 1⟩).state
      symbol action quantity hq
    simpa [hasQualify_append, hasQualify_cons_ic, hasPlaceOrder_append,
      hasPlaceOrder_cons_ic, idx_connect_noQualify, idx_connect_noPlace] using h2
  · simp [hasQualify_append, hasQualify_cons_ic, hasPlaceOrder_append,
      hasPlaceOrder_cons_ic, idx_connect_noQualify, idx_connect_noPlace]

/-- C6: in both variants, `place_market_order` only ever qualifies the
requested symbol as a Stock on venue "SMART" in "USD", and when
qualification returns no qualified contract it returns
`{"error": "Could not qualify contract for symbol <symbol>"}` (whenever
qualification was reached) and never reaches order placement. -/
theorem C6_qualify_short_circuit :
    (∀ (g : GatewayL) (st : StateL) (symbol action : String) (quantity : Int),
      qualifyArgsOk (idx_place_market_order g st symbol action quantity).trace
        symbol = true ∧
      (g.qualifyResult symbol = Except.ok [] →
        (hasQualify (idx_place_market_order g st symbol action quantity).trace
            = true →
          (idx_place_market_order g st symbol action quantity).result =
            [("error",
              JVal.str ("Could not qualify contract for symbol " ++ symbol))]) ∧
        hasPlaceOrder (idx_place_market_order g st symbol action quantity).trace
          = false)) ∧
    (∀ (g : GatewayP) (symbol action : String) (quantity : Int),
      qualifyArgsOk (app_place_market_order g symbol action quantity).trace
        symbol = true ∧
      (g.qualifyResult symbol = Except.ok [] →
        (hasQualify (app_place_market_order g symbol action quantity).trace
            = true →
          (app_place_market_order g symbol action quantity).result =
            [("error",
              JVal.str ("Could not qualify contract for symbol " ++ symbol))]) ∧
        hasPlaceOrder (app_place_market_order g symbol action quantity).trace
          = false)) :=
  ⟨fun g st symbol action quantity =>
    ⟨idx_pmkt_args g st symbol action quantity,
     fun hq => idx_pmkt_empty g st symbol action quantity hq⟩,
   fun g symbol action quantity =>
    ⟨app_pmkt_qualifyArgs g symbol action quantity,
     fun hq => app_pmkt_qempty g symbol action quantity hq⟩⟩

/-- C6 witness: against gateways whose qualification returns no contract,
both variants return the qualification error naming the symbol. -/
theorem C6_witness :
    (idx_place_market_order gLqualifyEmpty ⟨false, 0⟩ "ZZZZ" "BUY" 2).result =
      [("error", JVal.str ("Could not qualify contract for symbol " ++ "ZZZZ"))] ∧
    (app_place_market_order gPqualifyEmpty "ZZZZ" "SELL" 3).result =
      [("error", JVal.str ("Could not qualify contract for symbol " ++ "ZZZZ"))] :=
  ⟨((C6_qualify_short_circuit.1 gLqualifyEmpty ⟨false, 0⟩ "ZZZZ" "BUY" 2).2
      rfl).1 (by decide),
   ((C6_qualify_short_circuit.2 gPqualifyEmpty "ZZZZ" "SELL" 3).2
      rfl).1 (by decide)⟩

/-! ## Claim C7 -/

/-- C7 counterexample: the claim says any exception raised inside
`place_market_order` is converted to an ErrorResult carrying the
exception's message.  With a dead long-lived gateway whose `connectAsync`
raises "boom", the exception is caught inside `connect` and the operation
returns the fixed message "Failed to connect to IBKR" — not "boom". -/
theorem C7_counterexample :
    errMsg (idx_place_market_order gLconnFail ⟨false, 0⟩ "AAPL" "BUY" 1).result =
      some "Failed to connect to IBKR" ∧
    errMsg (idx_place_market_order gLconnFail ⟨false, 0⟩ "AAPL" "BUY" 1).result ≠
      some "boom" :=
  ⟨by decide, by decide⟩

/-- C7 amended: in both variants no exception escapes `place_market_order`
(the model is total), and the cached connected flag is false after every
exception path; exceptions raised by qualification or order placement are
converted to `{"error": <the exception's message>}`, while exceptions
raised by the connect attempt are caught inside `connect` and surface as
the fixed `{"error": "Failed to connect to IBKR"}`. -/
theorem C7_exceptions :
    (∀ (g : GatewayL) (st : StateL) (symbol action : String) (quantity : Int)
        (m : String),
      (g.qualifyResult symbol = Except.error m →
        hasQualify (idx_place_market_order g st symbol action quantity).trace
            = true →
          (idx_place_market_order g st symbol action quantity).result =
            [("error", JVal.str m)] ∧
          (idx_place_market_order g st symbol action quantity).state.connected
            = false) ∧
      (g.placeResult = Except.error m →
        hasPlaceOrder (idx_place_market_order g st symbol action quantity).trace
            = true →
          (idx_place_market_order g st symbol action quantity).result =
            [("error", JVal.str m)] ∧
          (idx_place_market_order g st symbol action quantity).state.connected
            = false) ∧
      (g.connectResult = Except.error m →
        hasConnectAsync (idx_place_market_order g st symbol action quantity).trace
            = true →
          (idx_place_market_order g st symbol action quantity).result =
            [("error", JVal.str "Failed to connect to IBKR")] ∧
          (idx_place_market_order g st symbol action quantity).state.connected
            = false)) ∧
    (∀ (g : GatewayP) (symbol action : String) (quantity : Int) (m : String),
      (g.qualifyResult symbol = Except.error m →
        hasQualify (app_place_market_order g symbol action quantity).trace
            = true →
          (app_place_market_order g symbol action quantity).result =
            [("error", JVal.str m)] ∧
          (app_place_market_order g symbol action quantity).connected = false) ∧
      (g.placeResult = Except.error m →
        hasPlaceOrder (app_place_market_order g symbol action quantity).trace
            = true →
          (app_place_market_order g symbol action quantity).result =
            [("error", JVal.str m)] ∧
          (app_place_market_order g symbol action quantity).connected = false) ∧
      (g.connectResult = Except.error m →
        (app_place_market_order g symbol action quantity).result =
          [("error", JVal.str "Failed to connect to IBKR")] ∧
        (app_place_market_order g symbol action quantity).connected = false)) := by
  constructor
  · intro g st symbol action quantity m
    refine ⟨?_, ?_, ?_⟩
    · intro h1
      rcases idx_pmkt_decomp g st symbol action quantity with
        ⟨l, heq⟩ | ⟨l, hok, heq⟩ | ⟨l, hok, heq⟩ <;> rw [heq]
      · have h2 := idx_pmkt_rest_qerror g ⟨st.connected, st.tick + 1⟩
          symbol action quantity m h1
        simpa [hasQualify_append, hasQualify_cons_ic] using h2
      · have h2 := idx_pmkt_rest_qerror g (idx_connect g ⟨false, st.tick + 1⟩).state
          symbol action quantity m h1
        simpa [hasQualify_append, hasQualify_cons_ic, idx_connect_noQualify] using h2
      · simp [hasQualify_append, hasQualify_cons_ic, idx_connect_noQualify]
    · intro h1
      rcases idx_pmkt_decomp g st symbol action quantity with
        ⟨l, heq⟩ | ⟨l, hok, heq⟩ | ⟨l, hok, heq⟩ <;> rw [heq]
      · have h2 := idx_pmkt_rest_perror g ⟨st.connected, st.tick + 1⟩
          symbol action quantity m h1
        simpa [hasPlaceOrder_append, hasPlaceOrder_cons_ic] using h2
      · have h2 := idx_pmkt_rest_perror g (idx_connect g ⟨false, st.tick + 1⟩).state
          symbol action quantity m h1
        simpa [hasPlaceOrder_append, hasPlaceOrder_cons_ic, idx_connect_noPlace] using h2
      · simp [hasPlaceOrder_append, hasPlaceOrder_cons_ic, idx_connect_noPlace]
    · intro h1
      rcases idx_pmkt_decomp g st symbol action quantity with
        ⟨l, heq⟩ | ⟨l, hok, heq⟩ | ⟨l, hok, heq⟩ <;> rw [heq]
      · have h2 := idx_pmkt_rest_noConnect g ⟨st.connected, st.tick + 1⟩
          symbol action quantity
        simp [hasConnectAsync_append, hasConnectAsync_cons_ic, h2]
      · have h2 := idx_pmkt_rest_noConnect g (idx_connect g ⟨false, st.tick + 1⟩).state
          symbol action quantity
        have h3 := idx_connect_ok_noHandshake g ⟨false, st.tick + 1⟩ m h1 hok
        simp [hasConnectAsync_append, hasConnectAsync_cons_ic, h2, h3]
      · have h3 := idx_connect_fail_state g ⟨false, st.tick + 1⟩ hok
        intro hca
        exact ⟨rfl, h3⟩
  · intro g symbol action quantity m
    exact ⟨app_pmkt_qerror g symbol action quantity m,
      app_pmkt_perror g symbol action quantity m,
      app_pmkt_cerror g symbol action quantity m⟩

/-- C7 witness: a long-lived gateway whose qualification raises "qboom"
yields the ErrorResult carrying "qboom" with the flag cleared, and a
per-request gateway whose connect raises yields the fixed connect-failure
ErrorResult with the flag cleared. -/
theorem C7_witness :
    ((idx_place_market_order gLqualifyRaise ⟨false, 0⟩ "AAPL" "BUY" 1).result =
        [("error", JVal.str "qboom")] ∧
      (idx_place_market_order gLqualifyRaise ⟨false, 0⟩ "AAPL" "BUY" 1).state.connected
        = false) ∧
    ((app_place_market_order gPconnFail "AAPL" "BUY" 1).result =
        [("error", JVal.str "Failed to connect to IBKR")] ∧
      (app_place_market_order gPconnFail "AAPL" "BUY" 1).connected = false) :=
  ⟨(C7_exceptions.1 gLqualifyRaise ⟨false, 0⟩ "AAPL" "BUY" 1 "qboom").1
      rfl (by decide),
   (C7_exceptions.2 gPconnFail "AAPL" "BUY" 1 "boom").2.2 rfl⟩

/-! ## Claim C8 -/

/-- C8: in the per-request variant, after `test_connection` or
`place_market_order` returns — on every path, success or failure — the
gateway connection opened by that call (its per-call `IB` instance) is no
longer open: the `finally` block disconnects any still-live handle. -/
theorem C8_cleanup :
    (∀ (g : GatewayP), handleOpen (app_test_connection g).ib = false) ∧
    (∀ (g : GatewayP) (symbol action : String) (quantity : Int),
      handleOpen (app_place_market_order g symbol action quantity).ib = false) := by
  constructor
  · intro g
    unfold app_test_connection app_connect app_finally
    cases hc : g.connectResult with
    | error m => simp [hc, handleOpen]
    | ok u =>
        by_cases hl : g.connectLanding
        · cases ha : g.accountsResult with
          | error m => simp [hc, hl, ha, handleOpen]
          | ok accounts => simp [hc, hl, ha, handleOpen]
        · simp [hc, hl, handleOpen]
  · intro g symbol action quantity
    unfold app_place_market_order app_connect app_finally
    cases hc : g.connectResult with
    | error m => simp [hc, handleOpen]
    | ok u =>
        by_cases hl : g.connectLanding
        · cases hq : g.qualifyResult symbol with
          | error m => simp [hc, hl, hq, handleOpen]
          | ok lst =>
              cases lst with
              | nil => simp [hc, hl, hq, handleOpen]
              | cons c cs =>
                  cases hp : g.placeResult with
                  | error m => simp [hc, hl, hq, hp, handleOpen]
                  | ok pr =>
                      obtain ⟨oid, stt⟩ := pr
                      simp [hc, hl, hq, hp, handleOpen]
        · simp [hc, hl, handleOpen]

/-! ## Claim C9 -/

/-- The `order_type` of every `place_market_order` result of the
per-request variant is "MARKET" when present. -/
theorem app_pmkt_orderType (g : GatewayP) (symbol action : String)
    (quantity : Int) :
    orderTypeOk (app_place_market_order g symbol action quantity).result
      = true := by
  unfold app_place_market_order app_connect app_finally
  cases hc : g.connectResult with
  | error m => simp [hc, orderTypeOk, lookupField]
  | ok u =>
      by_cases hl : g.connectLanding
      · cases hq : g.qualifyResult symbol with
        | error m => simp [hc, hl, hq, orderTypeOk, lookupField]
        | ok lst =>
            cases lst with
            | nil => simp [hc, hl, hq, orderTypeOk, lookupField]
            | cons c cs =>
                cases hp : g.placeResult with
                | error m => simp [hc, hl, hq, hp, orderTypeOk, lookupField]
                | ok pr =>
                    obtain ⟨oid, stt⟩ := pr
                    simp [hc, hl, hq, hp, orderTypeOk, orderSuccessObj,
                      lookupField]
      · simp [hc, hl, orderTypeOk, lookupField]

/-- The `order_type` of every tail result of the long-lived
`place_market_order` is "MARKET" when present. -/
theorem idx_pmkt_rest_orderType (g : GatewayL) (st : StateL)
    (symbol action : String) (quantity : Int) :
    orderTypeOk (idx_pmkt_rest g st symbol action quantity).result = true := by
  unfold idx_pmkt_rest
  by_cases l : g.live st.tick
  · cases hq : g.qualifyResult symbol with
    | error m => simp [l, hq, orderTypeOk, lookupField]
    | ok lst =>
        cases lst with
        | nil => simp [l, hq, orderTypeOk, lookupField]
        | cons c cs =>
            cases hp : g.placeResult with
            | error m => simp [l, hq, hp, orderTypeOk, lookupField]
            | ok pr =>
                obtain ⟨oid, stt⟩ := pr
                simp [l, hq, hp, orderTypeOk, orderSuccessObj, lookupField]
  · simp [l, orderTypeOk, lookupField]

/-- Every order placement of the long-lived `place_market_order` carries
the upper-cased requested action. -/
theorem idx_pmkt_placeActions (g : GatewayL) (st : StateL)
    (symbol action : String) (quantity : Int) :
    placeActionsAll (idx_place_market_order g st symbol action quantity).trace
      (strUpper action) = true := by
  rcases idx_pmkt_decomp g st symbol action quantity with
    ⟨l, heq⟩ | ⟨l, hok, heq⟩ | ⟨l, hok, heq⟩ <;> rw [heq] <;>
    simp [placeActionsAll_append, placeActionsAll_cons_ic,
      idx_connect_placeActions, idx_pmkt_rest_placeActions]

/-- The `order_type` of every `place_market_order` result of the long-lived
variant is "MARKET" when present. -/
theorem idx_pmkt_orderType (g : GatewayL) (st : StateL)
    (symbol action : String) (quantity : Int) :
    orderTypeOk (idx_place_market_order g st symbol action quantity).result
      = true := by
  rcases idx_pmkt_decomp g st symbol action quantity with
    ⟨l, heq⟩ | ⟨l, hok, heq⟩ | ⟨l, hok, heq⟩ <;> rw [heq]
  · exact idx_pmkt_rest_orderType g ⟨st.connected, st.tick + 1⟩
      symbol action quantity
  · exact idx_pmkt_rest_orderType g (idx_connect g ⟨false, st.tick + 1⟩).state
      symbol action quantity
  · simp [orderTypeOk, lookupField]

/-- An order route's response trace and body come either from the trader
call or from a short-circuit (validation 400 or catch-all 500-error). -/
theorem order_route_cases (pm : String → Int → JObj × List GCall)
    (reqBody : Option JVal) :
    (∃ s q, (order_route pm reqBody).body = (pm s q).1 ∧
      (order_route pm reqBody).trace = (pm s q).2) ∨
    ((order_route pm reqBody).trace = [] ∧
      ((order_route pm reqBody).body = missingFieldsObj ∨
        ∃ m, (order_route pm reqBody).body = [("error", JVal.str m)])) := by
  unfold order_route
  cases htry : order_route_try pm reqBody with
  | error e =>
      dsimp only
      exact Or.inr ⟨rfl, Or.inr ⟨e, rfl⟩⟩
  | ok out =>
      dsimp only
      rcases order_route_try_cases pm reqBody out htry with hout | ⟨s, q, _, hb, ht, _⟩
      · rw [hout]
        exact Or.inr ⟨rfl, Or.inl rfl⟩
      · exact Or.inl ⟨s, q, hb, ht⟩

/-- Every order placement reached through an order route carries the fixed
action `a`, and its response body's `order_type` can only be "MARKET",
provided the trader call has those properties. -/
theorem order_route_actions (pm : String → Int → JObj × List GCall)
    (reqBody : Option JVal) (a : String)
    (hpm : ∀ s q, placeActionsAll (pm s q).2 a = true)
    (hot : ∀ s q, orderTypeOk (pm s q).1 = true) :
    placeActionsAll (order_route pm reqBody).trace a = true ∧
    orderTypeOk (order_route pm reqBody).body = true := by
  rcases order_route_cases pm reqBody with ⟨s, q, hb, ht⟩ | ⟨ht, hb | ⟨m, hb⟩⟩
  · rw [hb, ht]
    exact ⟨hpm s q, hot s q⟩
  · rw [ht, hb]
    exact ⟨by simp [placeActionsAll], by simp [orderTypeOk, missingFieldsObj,
      lookupField]⟩
  · rw [ht, hb]
    exact ⟨by simp [placeActionsAll], by simp [orderTypeOk, lookupField]⟩

/-- C9: for every request body and every gateway behaviour, the order
action submitted through the HTTP interface is determined solely by the
route: every order placed via POST /buy carries action "BUY" and every
order placed via POST /sell carries action "SELL" (in both variants), and
the response's `order_type`, when present, is always "MARKET" — so an
`action` or `order_type` field in the payload has no effect. -/
theorem C9_route_determines_action :
    (∀ (g : GatewayP) (reqBody : Option JVal),
      placeActionsAll (app_buy_route g reqBody).trace "BUY" = true ∧
      orderTypeOk (app_buy_route g reqBody).body = true) ∧
    (∀ (g : GatewayP) (reqBody : Option JVal),
      placeActionsAll (app_sell_route g reqBody).trace "SELL" = true ∧
      orderTypeOk (app_sell_route g reqBody).body = true) ∧
    (∀ (g : GatewayL) (st : StateL) (reqBody : Option JVal),
      placeActionsAll (idx_buy_route g st reqBody).trace "BUY" = true ∧
      orderTypeOk (idx_buy_route g st reqBody).body = true) ∧
    (∀ (g : GatewayL) (st : StateL) (reqBody : Option JVal),
      placeActionsAll (idx_sell_route g st reqBody).trace "SELL" = true ∧
      orderTypeOk (idx_sell_route g st reqBody).body = true) := by
  refine ⟨fun g reqBody => order_route_actions _ reqBody "BUY" ?_ ?_,
    fun g reqBody => order_route_actions _ reqBody "SELL" ?_ ?_,
    fun g st reqBody => order_route_actions _ reqBody "BUY" ?_ ?_,
    fun g st reqBody => order_route_actions _ reqBody "SELL" ?_ ?_⟩
  · intro s q
    have h := app_pmkt_placeActions g s "BUY" q
    rw [show strUpper "BUY" = "BUY" from rfl] at h
    exact h
  · intro s q
    exact app_pmkt_orderType g s "BUY" q
  · intro s q
    have h := app_pmkt_placeActions g s "SELL" q
    rw [show strUpper "SELL" = "SELL" from rfl] at h
    exact h
  · intro s q
    exact app_pmkt_orderType g s "SELL" q
  · intro s q
    have h := idx_pmkt_placeActions g st s "BUY" q
    rw [show strUpper "BUY" = "BUY" from rfl] at h
    exact h
  · intro s q
    exact idx_pmkt_orderType g st s "BUY" q
  · intro s q
    have h := idx_pmkt_placeActions g st s "SELL" q
    rw [show strUpper "SELL" = "SELL" from rfl] at h
    exact h
  · intro s q
    exact idx_pmkt_orderType g st s "SELL" q

/-! ## Claim C10 -/

/-- C10 counterexample: the claim says a body that is not a JSON object is
handled by the catch-all with HTTP 500.  A body parsing to the empty JSON
array supports Python membership tests, so the /buy route returns the 400
validation error instead. -/
theorem C10_counterexample :
    (app_buy_route gP0 (some (JVal.arr []))).status = 400 ∧
    (app_buy_route gP0 (some (JVal.arr []))).body = missingFieldsObj :=
  ⟨rfl, rfl⟩

/-- C10 amended: an absent/unparsable body, or one parsing to null, a
boolean or a number (where Python membership raises TypeError), makes the
catch-all return HTTP 500 with the exception message and no trader call; a
body parsing to a string or array supports the membership test and yields
the 400 validation response when "symbol" (or "quantity") is not found in
it; an object body carrying both keys but a non-string `symbol` or a
`quantity` that `int()` cannot coerce makes the catch-all return 500 with
the exception message, again with no trader (hence no gateway) call. -/
theorem C10_bad_bodies :
    (∀ (pm : String → Int → JObj × List GCall),
      order_route pm none =
        ⟨500, [("error", JVal.str "Failed to decode JSON object")], [], none⟩) ∧
    (∀ (pm : String → Int → JObj × List GCall) (v : JVal) (e : String),
      pyContains v "symbol" = Except.error e →
        order_route pm (some v) = ⟨500, [("error", JVal.str e)], [], none⟩) ∧
    (∀ (pm : String → Int → JObj × List GCall) (v : JVal),
      pyContains v "symbol" = Except.ok false →
        order_route pm (some v) = ⟨400, missingFieldsObj, [], none⟩) ∧
    (∀ (pm : String → Int → JObj × List GCall) (fields : JObj) (v : JVal)
        (e : String),
      hasKey fields "symbol" = true → hasKey fields "quantity" = true →
      lookupField fields "symbol" = some v → pyUpper v = Except.error e →
        order_route pm (some (JVal.obj fields)) =
          ⟨500, [("error", JVal.str e)], [], none⟩) ∧
    (∀ (pm : String → Int → JObj × List GCall) (fields : JObj) (sv qv : JVal)
        (s e : String),
      hasKey fields "symbol" = true → hasKey fields "quantity" = true →
      lookupField fields "symbol" = some sv → pyUpper sv = Except.ok s →
      lookupField fields "quantity" = some qv → pyToInt qv = Except.error e →
        order_route pm (some (JVal.obj fields)) =
          ⟨500, [("error", JVal.str e)], [], none⟩) := by
  refine ⟨fun pm => rfl, ?_, ?_, ?_, ?_⟩
  · intro pm v e h
    simp [order_route, order_route_try, h]
  · intro pm v h
    simp [order_route, order_route_try, h]
  · intro pm fields v e hs hk hv he
    simp [order_route, order_route_try, pyContains, hs, hk, pySubscript, hv, he]
  · intro pm fields sv qv s e hs hk hv hu hqv hi
    simp [order_route, order_route_try, pyContains, hs, hk, pySubscript, hv, hu,
      hqv, hi]

/-- C10 witness: the amended statement applied to a null body and to an
object body whose quantity cannot be coerced to an integer. -/
theorem C10_witness :
    order_route pmP0buy (some JVal.null) =
      ⟨500, [("error", JVal.str "argument of type 'NoneType' is not iterable")],
        [], none⟩ ∧
    order_route pmP0buy
        (some (JVal.obj [("symbol", JVal.str "A"), ("quantity", JVal.str "x")])) =
      ⟨500, [("error", JVal.str "invalid literal for int() with base 10: 'x'")],
        [], none⟩ :=
  ⟨C10_bad_bodies.2.1 pmP0buy JVal.null
      "argument of type 'NoneType' is not iterable" rfl,
   C10_bad_bodies.2.2.2.2 pmP0buy
      [("symbol", JVal.str "A"), ("quantity", JVal.str "x")]
      (JVal.str "A") (JVal.str "x") "A"
      "invalid literal for int() with base 10: 'x'"
      rfl rfl rfl rfl rfl rfl⟩

end IBKR
